import Mathlib

/-!
Shallow embedding of the OpenCensus Django middleware
(contrib/opencensus-ext-django/opencensus/ext/django/middleware.py).

The middleware itself is embedded from the source. Collaborators that live in
this repository but outside src (opencensus.trace.utils, opencensus.trace
execution_context, the Tracer) are modelled from the spec where noted; only the
state that the claims observe is kept (the span stack, per-span end counts, the
per-request context store, a log counter).

Instrumentation steps that can raise in Python are driven by an explicit
oracle of failure flags, so that every catch-and-log boundary of the source is
an honest theorem rather than a modelling artifact.
-/

set_option linter.unusedVariables false

/-- Attribute values the middleware attaches to spans: strings (host, method,
path, url, user fields, error data) and integers (the HTTP status code). -/
inductive AttrValue where
  | str (s : String)
  | int (n : Int)
deriving DecidableEq, Repr

/-- Span kinds used by the middleware: SERVER for the root request span,
CLIENT for database child spans (span_module.SpanKind). -/
inductive SpanKind where
  | UNSPECIFIED
  | SERVER
  | CLIENT
deriving DecidableEq, Repr

/-- Span status as set by _trace_db_call on a failing database call
(status_module.Status: a google.rpc code plus a message). -/
structure Status where
  code : Int
  message : String
deriving DecidableEq, Repr

/-- Numeric value of google.rpc code_pb2.UNKNOWN. -/
def UNKNOWN : Int := 2

/-- A span: mutable name, kind, ordered attribute list, optional status, and a
count of how many times tracer.end_span has ended it (0 = still open; the
count makes close-exactly-once claims directly statable). -/
structure Span where
  name : String
  span_kind : SpanKind
  attributes : List (String × AttrValue)
  status : Option Status
  endCount : Nat
deriving DecidableEq, Repr

/-- Span.add_attribute appends one key/value pair to the attribute list. -/
def Span.add_attribute (sp : Span) (key : String) (v : AttrValue) : Span :=
  { sp with attributes := sp.attributes ++ [(key, v)] }

/-- Span.set_status records a status on the span. -/
def Span.set_status (sp : Span) (st : Status) : Span :=
  { sp with status := some st }

/-- Modelled from the spec: a freshly started span, before the middleware
renames it (tracer.start_span is not under src; the spec says the span name
is a default placeholder until route resolution). -/
def newSpan : Span :=
  { name := "span", span_kind := SpanKind.UNSPECIFIED, attributes := [],
    status := none, endCount := 0 }

/-- The authenticated principal of a Django request: pk is the primary key
read as user id, username is the result of get_username(). Either may be
missing (None) on exotic user models. -/
structure DjangoUser where
  pk : Option Int
  username : Option String
deriving DecidableEq, Repr

/-- The slice of a Django HttpRequest the middleware reads: path, get_host(),
method, build_absolute_uri(), the optional user attribute, and META headers. -/
structure Request where
  path : String
  host : String
  method : String
  absolute_uri : String
  user : Option DjangoUser
  meta : List (String × String)
deriving DecidableEq, Repr

/-- The slice of a Django response the middleware reads: status_code. -/
structure Response where
  status_code : Int
deriving DecidableEq, Repr

/-- An unhandled application exception as seen by process_exception: its class
name, its str() rendering, and the formatted traceback lines that
traceback.format_tb produces for it. -/
structure RaisedException where
  class_name : String
  message : String
  tb_lines : List String
deriving DecidableEq, Repr

/-- Modelled from the spec: the Tracer (opencensus.trace.tracer, not under
src) owns a stack of currently-open span ids, innermost first, and is
finalized by finish which flushes to the exporter; finishCount counts those
flushes. -/
structure TracerData where
  stack : List Nat
  finishCount : Nat
deriving DecidableEq, Repr

/-- The per-logical-request world: the span arena (ids are list indices), the
tracer registered in the execution context (none when no Tracer is active),
the three context-store entries the middleware writes (django_request,
django_span, excludelist_hostnames; an outer none means the key was never
written), and a count of swallowed-and-logged instrumentation errors. -/
structure TraceState where
  spans : List Span
  tracer : Option TracerData
  ctxRequest : Option Request
  ctxSpan : Option Nat
  ctxHostnames : Option (Option (List String))
  logCount : Nat
deriving DecidableEq, Repr

/-- The clean execution context a fresh logical request starts from. -/
def initState : TraceState :=
  { spans := [], tracer := none, ctxRequest := none, ctxSpan := none,
    ctxHostnames := none, logCount := 0 }

/-- The middleware configuration the hooks consult (OpencensusMiddleware
instance fields loaded in its constructor). -/
structure OpencensusMiddleware where
  excludelist_paths : Option (List String)
  excludelist_hostnames : Option (List String)
deriving DecidableEq, Repr

/-- Oracle of instrumentation failures: one flag per Python statement that
can raise inside a guarded (or, for the database interceptor, unguarded)
instrumentation block. A true flag makes that step raise. -/
structure Oracle where
  failFromHeaders : Bool
  failTracerCtor : Bool
  failStartSpan : Bool
  failAddHost : Bool
  failAddMethod : Bool
  failAddPath : Bool
  failAddRoute : Bool
  failAddUrl : Bool
  failSetViewName : Bool
  failAddStatusCode : Bool
  failSetDjangoAttrsResp : Bool
  failEndSpan : Bool
  failFinish : Bool
  failAddErrorName : Bool
  failAddErrorMessage : Bool
  failAddStacktrace : Bool
  failSetDjangoAttrsExc : Bool
  failDbStartSpan : Bool
  failDbAddComponent : Bool
  failDbAddInstance : Bool
  failDbAddStatement : Bool
  failDbAddType : Bool
  failDbSetStatus : Bool
  failDbEndSpan : Bool
deriving DecidableEq, Repr

/-- The oracle on which no instrumentation step fails. -/
def noFail : Oracle :=
  { failFromHeaders := false, failTracerCtor := false, failStartSpan := false,
    failAddHost := false, failAddMethod := false, failAddPath := false,
    failAddRoute := false, failAddUrl := false, failSetViewName := false,
    failAddStatusCode := false, failSetDjangoAttrsResp := false,
    failEndSpan := false, failFinish := false, failAddErrorName := false,
    failAddErrorMessage := false, failAddStacktrace := false,
    failSetDjangoAttrsExc := false, failDbStartSpan := false,
    failDbAddComponent := false, failDbAddInstance := false,
    failDbAddStatement := false, failDbAddType := false,
    failDbSetStatus := false, failDbEndSpan := false }

/-- Result of a sequence of Python statements in a try block: ok carries the
state after the block, exn carries the state at the point the exception was
raised (earlier side effects persist, as in Python). -/
inductive StepResult where
  | ok (s : TraceState)
  | exn (s : TraceState)
deriving DecidableEq, Repr

/-- Sequencing of statements: a raised exception skips the rest of the block
but keeps the state it was raised in. -/
def StepResult.andThen : StepResult → (TraceState → StepResult) → StepResult
  | StepResult.ok s, f => f s
  | StepResult.exn s, _ => StepResult.exn s

/-- The except-Exception-log boundary wrapped around each hook body:
a raised exception is swallowed and counted as one log.error call. -/
def StepResult.toCaught : StepResult → TraceState
  | StepResult.ok s => s
  | StepResult.exn s => { s with logCount := s.logCount + 1 }

/-- Pointwise update of the span arena at one id (out-of-range is a no-op). -/
def updateAt (i : Nat) (f : Span → Span) : List Span → List Span
  | [] => []
  | sp :: rest =>
    match i with
    | 0 => f sp :: rest
    | Nat.succ j => sp :: updateAt j f rest

/-- Mutation of the span object with id i in the arena. -/
def spanArenaUpdate (i : Nat) (f : Span → Span) (s : TraceState) : TraceState :=
  { s with spans := updateAt i f s.spans }

/-- Modelled from the spec: utils.disable_tracing_url (opencensus.trace.utils,
not under src). Pure predicate on a request path and the configured
path-pattern exclusions; true when any pattern matches (a pattern matches as
a prefix of the path); an absent configuration excludes nothing. -/
def disable_tracing_url (path : String) (excludelist_paths : Option (List String)) : Bool :=
  match excludelist_paths with
  | none => false
  | some pats => pats.any (fun p => p.data.isPrefixOf path.data)

/-- Modelled from the spec: utils.disable_tracing_hostname (not under src).
True when the hostname matches one of the configured hostname exclusions. -/
def disable_tracing_hostname (host : String) (excludelist_hostnames : Option (List String)) : Bool :=
  match excludelist_hostnames with
  | none => false
  | some hosts => hosts.contains host

/-- Header lookup of _DjangoMetaWrapper.get: translates a header name to the
Django META convention (HTTP_ prefix, upper case, hyphens to underscores). -/
def djangoMetaGet (meta : List (String × String)) (key : String) : Option String :=
  (meta.find? (fun kv => kv.1 = "HTTP_" ++ ((key.toUpper).replace "-" "_"))).map Prod.snd

/-- The span id tracer.current_span refers to: the innermost open span of the
active tracer, none when no tracer is active or its stack is empty. -/
def currentSpanId (s : TraceState) : Option Nat :=
  match s.tracer with
  | none => none
  | some t => t.stack.head?

/-- Infallible field assignment on the current span object (plain Python
attribute assignment such as span.name = or span.span_kind =, on a span that
the surrounding code just obtained). -/
def setCurrentSpanPlain (f : Span → Span) (s : TraceState) : TraceState :=
  match currentSpanId s with
  | none => s
  | some i => { s with spans := updateAt i f s.spans }

/-- A fallible operation on the current span: raises when the oracle says so,
or when there is no current span (attribute access on None, or an empty span
stack); otherwise applies the update. -/
def currentSpanSet (fail : Bool) (f : Span → Span) (s : TraceState) : StepResult :=
  if fail then StepResult.exn s
  else
    match currentSpanId s with
    | none => StepResult.exn s
    | some i => StepResult.ok { s with spans := updateAt i f s.spans }

/-- Modelled from the spec: tracer.start_span (not under src) opens a fresh
span and pushes it onto the stack of currently-open spans; it raises when no
tracer is active. -/
def tracerStartSpan (s : TraceState) : StepResult :=
  match s.tracer with
  | none => StepResult.exn s
  | some t =>
    StepResult.ok
      { s with
        spans := s.spans ++ [newSpan],
        tracer := some { t with stack := s.spans.length :: t.stack } }

/-- Modelled from the spec: tracer.add_attribute_to_current_span (not under
src) adds one attribute to the innermost open span. -/
def add_attribute_to_current_span (fail : Bool) (key : String) (v : AttrValue) (s : TraceState) : StepResult :=
  currentSpanSet fail (fun sp => Span.add_attribute sp key v) s

/-- Modelled from the spec: tracer.end_span (not under src) closes the
innermost open span exactly once (its end time, here its end count, is set)
and pops it; undefined (raises) when no span is open. -/
def tracerEndSpan (fail : Bool) (s : TraceState) : StepResult :=
  if fail then StepResult.exn s
  else
    match s.tracer with
    | none => StepResult.exn s
    | some t =>
      match t.stack with
      | [] => StepResult.exn s
      | i :: rest =>
        StepResult.ok
          { s with
            spans := updateAt i (fun sp => { sp with endCount := sp.endCount + 1 }) s.spans,
            tracer := some { t with stack := rest } }

/-- Modelled from the spec: tracer.finish (not under src) finalizes the
tracer, flushing the finished spans to the exporter. -/
def tracerFinish (fail : Bool) (s : TraceState) : StepResult :=
  if fail then StepResult.exn s
  else
    match s.tracer with
    | none => StepResult.exn s
    | some t =>
      StepResult.ok { s with tracer := some { t with finishCount := t.finishCount + 1 } }

/-- Attribute key for the request host (attributes_helper, not under src). -/
def HTTP_HOST : String := "http.host"

/-- Attribute key for the request method (attributes_helper, not under src). -/
def HTTP_METHOD : String := "http.method"

/-- Attribute key for the request path (attributes_helper, not under src). -/
def HTTP_PATH : String := "http.path"

/-- Attribute key for the request route (attributes_helper, not under src). -/
def HTTP_ROUTE : String := "http.route"

/-- Attribute key for the absolute url (attributes_helper, not under src). -/
def HTTP_URL : String := "http.url"

/-- Attribute key for the response status code (attributes_helper). -/
def HTTP_STATUS_CODE : String := "http.status_code"

/-- Attribute key for the error message (attributes_helper). -/
def ERROR_MESSAGE : String := "error.message"

/-- Attribute key for the error name (attributes_helper). -/
def ERROR_NAME : String := "error.name"

/-- Attribute key for the formatted stack trace (attributes_helper). -/
def STACKTRACE : String := "stacktrace"

/-- Embedding of _set_django_attributes: reads the optional user from the
request; when present, attaches django.user.id when the primary key is not
None and django.user.name when the username is not None, each independently,
both stringified. -/
def _set_django_attributes (span : Span) (request : Request) : Span :=
  match request.user with
  | none => span
  | some django_user =>
    let span1 :=
      match django_user.pk with
      | some user_id => Span.add_attribute span "django.user.id" (AttrValue.str (toString user_id))
      | none => span
    match django_user.username with
    | some user_name => Span.add_attribute span1 "django.user.name" (AttrValue.str user_name)
    | none => span1

/-- Outcome of one wrapped database execution as its caller observes it:
the result of the call, the database exception re-raised, or an
instrumentation exception that escaped the interceptor. -/
inductive DbCallOutcome (ε ρ : Type) where
  | ok (r : ρ)
  | dbExn (e : ε)
  | instrExn
deriving DecidableEq, Repr

/-- The caller-observable outcome of running the bare execute callable,
with no instrumentation at all. -/
def outcomeOfExec {ε ρ : Type} (execute : Except ε ρ) : DbCallOutcome ε ρ :=
  match execute with
  | Except.ok r => DbCallOutcome.ok r
  | Except.error e => DbCallOutcome.dbExn e

/-- Embedding of _trace_db_call. The wrapped execute callable is given by its
outcome (a result or a database exception). With no active tracer the call
runs unmodified. Otherwise a child span is started, renamed to vendor.query,
marked CLIENT, given the four db attributes (these span-management steps are
not inside any try block: a failure there escapes to the caller); then the
call runs inside try/except/else/finally: a database exception gets status
UNKNOWN with message DB error and is re-raised, and the finally block always
runs tracer.end_span. -/
def _trace_db_call {ε ρ : Type} (o : Oracle) (vendor aliasName sql : String)
    (execute : Except ε ρ) (s : TraceState) : DbCallOutcome ε ρ × TraceState :=
  match s.tracer with
  | none => (outcomeOfExec execute, s)
  | some _ =>
    if o.failDbStartSpan then (DbCallOutcome.instrExn, s)
    else
      match tracerStartSpan s with
      | StepResult.exn s1 => (DbCallOutcome.instrExn, s1)
      | StepResult.ok s1 =>
        let s2 := setCurrentSpanPlain
          (fun sp => { sp with name := vendor ++ ".query", span_kind := SpanKind.CLIENT }) s1
        match
          (add_attribute_to_current_span o.failDbAddComponent "component" (AttrValue.str vendor) s2).andThen (fun sa =>
          (add_attribute_to_current_span o.failDbAddInstance "db.instance" (AttrValue.str aliasName) sa).andThen (fun sb =>
          (add_attribute_to_current_span o.failDbAddStatement "db.statement" (AttrValue.str sql) sb).andThen (fun sc =>
          add_attribute_to_current_span o.failDbAddType "db.type" (AttrValue.str "sql") sc)))
        with
        | StepResult.exn s3 => (DbCallOutcome.instrExn, s3)
        | StepResult.ok s3 =>
          match execute with
          | Except.ok r =>
            match tracerEndSpan o.failDbEndSpan s3 with
            | StepResult.ok s4 => (DbCallOutcome.ok r, s4)
            | StepResult.exn s4 => (DbCallOutcome.instrExn, s4)
          | Except.error e =>
            if o.failDbSetStatus then
              match tracerEndSpan o.failDbEndSpan s3 with
              | StepResult.ok s4 => (DbCallOutcome.instrExn, s4)
              | StepResult.exn s4 => (DbCallOutcome.instrExn, s4)
            else
              let s4 := setCurrentSpanPlain
                (fun sp => Span.set_status sp { code := UNKNOWN, message := "DB error" }) s3
              match tracerEndSpan o.failDbEndSpan s4 with
              | StepResult.ok s5 => (DbCallOutcome.dbExn e, s5)
              | StepResult.exn s5 => (DbCallOutcome.instrExn, s5)

namespace OpencensusMiddleware

/-- Embedding of OpencensusMiddleware.process_request: returns untouched when
the path is excluded; otherwise writes the request handle and the hostname
excludelist snapshot into the context store, then runs the guarded block
(decode headers, construct the tracer, start the SERVER root span, add the
five standard attributes, cache the span in the context store); any raise in
the guarded block is logged and swallowed, keeping earlier effects. -/
def process_request (mw : OpencensusMiddleware) (o : Oracle) (request : Request)
    (s : TraceState) : TraceState :=
  if disable_tracing_url request.path mw.excludelist_paths then s
  else
    let sPre := { s with ctxRequest := some request,
                         ctxHostnames := some mw.excludelist_hostnames }
    StepResult.toCaught (
      (if o.failFromHeaders then StepResult.exn sPre else StepResult.ok sPre).andThen (fun sa =>
      (if o.failTracerCtor then StepResult.exn sa
       else StepResult.ok { sa with tracer := some { stack := [], finishCount := 0 } }).andThen (fun sb =>
      (if o.failStartSpan then StepResult.exn sb else tracerStartSpan sb).andThen (fun sc =>
      (StepResult.ok (setCurrentSpanPlain (fun sp => { sp with span_kind := SpanKind.SERVER }) sc)).andThen (fun sd =>
      (add_attribute_to_current_span o.failAddHost HTTP_HOST (AttrValue.str request.host) sd).andThen (fun se =>
      (add_attribute_to_current_span o.failAddMethod HTTP_METHOD (AttrValue.str request.method) se).andThen (fun sf =>
      (add_attribute_to_current_span o.failAddPath HTTP_PATH (AttrValue.str request.path) sf).andThen (fun sg =>
      (add_attribute_to_current_span o.failAddRoute HTTP_ROUTE (AttrValue.str request.path) sg).andThen (fun sh =>
      (add_attribute_to_current_span o.failAddUrl HTTP_URL (AttrValue.str request.absolute_uri) sh).andThen (fun si =>
      StepResult.ok { si with ctxSpan := currentSpanId si }))))))))))

/-- Embedding of OpencensusMiddleware.process_view: no-op when the path is
excluded; otherwise renames the current span of the active tracer to the
resolved view function name, swallowing and logging any raise (including no
active tracer or no current span). -/
def process_view (mw : OpencensusMiddleware) (o : Oracle) (request : Request)
    (view_func_name : String) (s : TraceState) : TraceState :=
  if disable_tracing_url request.path mw.excludelist_paths then s
  else
    StepResult.toCaught
      (currentSpanSet o.failSetViewName (fun sp => { sp with name := view_func_name }) s)

/-- Embedding of OpencensusMiddleware.process_response: when the path is
excluded, returns the response untouched; otherwise annotates the context
store span with the status code, sets the django user attributes, ends the
current span and finishes the tracer, all inside a guarded block whose raise
is logged and swallowed; the finally block returns the original response in
every case. -/
def process_response (mw : OpencensusMiddleware) (o : Oracle) (request : Request)
    (response : Response) (s : TraceState) : TraceState × Response :=
  if disable_tracing_url request.path mw.excludelist_paths then (s, response)
  else
    let s1 := StepResult.toCaught (
      match s.ctxSpan with
      | none => StepResult.exn s
      | some i =>
        (if o.failAddStatusCode then StepResult.exn s
         else StepResult.ok (spanArenaUpdate i
           (fun sp => Span.add_attribute sp HTTP_STATUS_CODE (AttrValue.int response.status_code)) s)).andThen (fun sa =>
        (if o.failSetDjangoAttrsResp then StepResult.exn sa
         else StepResult.ok (spanArenaUpdate i (fun sp => _set_django_attributes sp request) sa)).andThen (fun sb =>
        (tracerEndSpan o.failEndSpan sb).andThen (fun sc =>
        tracerFinish o.failFinish sc))))
    (s1, response)

/-- Embedding of OpencensusMiddleware.process_exception: no-op when the path
is excluded; otherwise annotates the span cached in the context store at
request start (not the tracer current span) with the error name, the error
message and the joined formatted traceback, then re-attaches the django user
attributes; never ends the span; any raise is logged and swallowed. -/
def process_exception (mw : OpencensusMiddleware) (o : Oracle) (request : Request)
    (exception : RaisedException) (s : TraceState) : TraceState :=
  if disable_tracing_url request.path mw.excludelist_paths then s
  else
    StepResult.toCaught (
      match s.ctxSpan with
      | none => StepResult.exn s
      | some i =>
        (if o.failAddErrorName then StepResult.exn s
         else StepResult.ok (spanArenaUpdate i
           (fun sp => Span.add_attribute sp ERROR_NAME (AttrValue.str exception.class_name)) s)).andThen (fun sa =>
        (if o.failAddErrorMessage then StepResult.exn sa
         else StepResult.ok (spanArenaUpdate i
           (fun sp => Span.add_attribute sp ERROR_MESSAGE (AttrValue.str exception.message)) sa)).andThen (fun sb =>
        (if o.failAddStacktrace then StepResult.exn sb
         else StepResult.ok (spanArenaUpdate i
           (fun sp => Span.add_attribute sp STACKTRACE
             (AttrValue.str (String.intercalate "\n" exception.tb_lines))) sb)).andThen (fun sc =>
        if o.failSetDjangoAttrsExc then StepResult.exn sc
        else StepResult.ok (spanArenaUpdate i (fun sp => _set_django_attributes sp request) sc)))))

end OpencensusMiddleware

/-- Helper: two arena updates at the same id compose. -/
theorem updateAt_updateAt (i : Nat) (f g : Span → Span) (l : List Span) :
    updateAt i f (updateAt i g l) = updateAt i (fun sp => f (g sp)) l := by
  induction l generalizing i with
  | nil => simp [updateAt]
  | cons x xs ih =>
    cases i with
    | zero => simp [updateAt]
    | succ j => simp [updateAt, ih]

/-- Helper: updating the element just appended to a list. -/
theorem updateAt_append_length (l : List Span) (x : Span) (f : Span → Span) :
    updateAt l.length f (l ++ [x]) = l ++ [f x] := by
  induction l with
  | nil => simp [updateAt]
  | cons y ys ih => simp [updateAt, ih]

/-- Helper: add_attribute does not touch the end count. -/
theorem endCount_add_attribute (sp : Span) (k : String) (v : AttrValue) :
    (Span.add_attribute sp k v).endCount = sp.endCount := rfl

/-- Helper: _set_django_attributes does not touch the end count. -/
theorem endCount_set_django_attributes (sp : Span) (r : Request) :
    (_set_django_attributes sp r).endCount = sp.endCount := by
  unfold _set_django_attributes
  cases r.user with
  | none => rfl
  | some u =>
    cases hpk : u.pk <;> cases hun : u.username <;>
      simp [hpk, hun, Span.add_attribute]

/-- Helper: an end-count preserving update leaves the end-count image of the
arena unchanged. -/
theorem map_endCount_updateAt (i : Nat) (f : Span → Span) (l : List Span)
    (h : ∀ sp, (f sp).endCount = sp.endCount) :
    (updateAt i f l).map Span.endCount = l.map Span.endCount := by
  induction l generalizing i with
  | nil => simp [updateAt]
  | cons x xs ih =>
    cases i with
    | zero => simp [updateAt, h]
    | succ j => simp [updateAt, ih]

/-- Middleware configured with no exclusions. -/
def mwNone : OpencensusMiddleware :=
  { excludelist_paths := none, excludelist_hostnames := none }

/-- Middleware excluding the /healthz path. -/
def mwHealth : OpencensusMiddleware :=
  { excludelist_paths := some ["/healthz"], excludelist_hostnames := none }

/-- A plain unauthenticated request. -/
def reqOrders : Request :=
  { path := "/orders/42", host := "example.com", method := "GET",
    absolute_uri := "http://example.com/orders/42", user := none, meta := [] }

/-- A request to the excluded health endpoint. -/
def reqHealth : Request :=
  { path := "/healthz", host := "example.com", method := "GET",
    absolute_uri := "http://example.com/healthz", user := none, meta := [] }

/-- A successful response. -/
def respOk : Response := { status_code := 200 }

/-- An unhandled application exception. -/
def excBoom : RaisedException :=
  { class_name := "ValueError", message := "boom",
    tb_lines := ["  File app.py, line 1, in handler"] }

/-- An execution context with an active tracer that has no open span yet. -/
def stateWithTracer : TraceState :=
  { spans := [], tracer := some { stack := [], finishCount := 0 },
    ctxRequest := none, ctxSpan := none, ctxHostnames := none, logCount := 0 }

/-- A root span as cached by process_request before annotation. -/
def spanBase : Span :=
  { name := "span", span_kind := SpanKind.SERVER, attributes := [],
    status := none, endCount := 0 }

/-- An execution context holding one open root span that is also cached in the
context store, as after a successful process_request. -/
def stateOneSpan : TraceState :=
  { spans := [spanBase], tracer := some { stack := [0], finishCount := 0 },
    ctxRequest := none, ctxSpan := some 0, ctxHostnames := none, logCount := 0 }

/-- C3: for a request whose path matches a configured exclusion pattern, all
four hooks are no-ops on any execution-context state (so the decision cannot
come from a cached entry) and under any failure oracle: no span is created,
no context-store entry is written, and process_response returns the response
unchanged. -/
theorem excluded_request_hooks_are_noops
    (mw : OpencensusMiddleware) (o : Oracle) (request : Request)
    (view_func_name : String) (response : Response) (exception : RaisedException)
    (s : TraceState)
    (hex : disable_tracing_url request.path mw.excludelist_paths = true) :
    OpencensusMiddleware.process_request mw o request s = s
    ∧ OpencensusMiddleware.process_view mw o request view_func_name s = s
    ∧ OpencensusMiddleware.process_response mw o request response s = (s, response)
    ∧ OpencensusMiddleware.process_exception mw o request exception s = s := by
  unfold OpencensusMiddleware.process_request OpencensusMiddleware.process_view
    OpencensusMiddleware.process_response OpencensusMiddleware.process_exception
  simp [hex]

/-- Witness for C3 at the /healthz example of the spec. -/
theorem excluded_request_hooks_are_noops_witness :
    OpencensusMiddleware.process_request mwHealth noFail reqHealth initState = initState
    ∧ OpencensusMiddleware.process_view mwHealth noFail reqHealth "OrdersView" initState = initState
    ∧ OpencensusMiddleware.process_response mwHealth noFail reqHealth respOk initState
        = (initState, respOk)
    ∧ OpencensusMiddleware.process_exception mwHealth noFail reqHealth excBoom initState = initState :=
  excluded_request_hooks_are_noops mwHealth noFail reqHealth "OrdersView" respOk excBoom
    initState (by decide)

/-- C7: process_response returns the original response object for every
middleware configuration, request, state, and failure oracle, including the
oracles on which annotation, span closing, or tracer finalization raises. -/
theorem process_response_always_returns_response
    (mw : OpencensusMiddleware) (o : Oracle) (request : Request)
    (response : Response) (s : TraceState) :
    (OpencensusMiddleware.process_response mw o request response s).2 = response := by
  unfold OpencensusMiddleware.process_response
  split <;> rfl

/-- C5: with no active tracer, _trace_db_call runs the wrapped call
unmodified: the caller sees exactly the result or exception of the bare
call, and the execution context is untouched (no span, no side effect). -/
theorem db_call_without_tracer_runs_unmodified {ε ρ : Type}
    (o : Oracle) (vendor aliasName sql : String) (execute : Except ε ρ)
    (s : TraceState) (h : s.tracer = none) :
    _trace_db_call o vendor aliasName sql execute s = (outcomeOfExec execute, s) := by
  unfold _trace_db_call
  rw [h]

/-- Witness for C5 on a concrete successful call with no tracer. -/
theorem db_call_without_tracer_runs_unmodified_witness :
    _trace_db_call noFail "postgresql" "default" "SELECT 1"
        (Except.ok (7 : Int) : Except String Int) initState
      = (DbCallOutcome.ok 7, initState) :=
  db_call_without_tracer_runs_unmodified noFail "postgresql" "default" "SELECT 1"
    (Except.ok 7) initState rfl

/-- C6: with an active tracer and no instrumentation failure, _trace_db_call
returns exactly the outcome of the wrapped call (re-raising a database
exception unchanged), creates exactly one child CLIENT span named
vendor.query with the four db attributes, sets its status to UNKNOWN with
the generic message DB error exactly when the call raised, and closes the
span exactly once on both the normal and the exception path, restoring the
tracer stack. -/
theorem db_call_closes_span_and_reraises {ε ρ : Type}
    (vendor aliasName sql : String) (execute : Except ε ρ)
    (s : TraceState) (t : TracerData) (h : s.tracer = some t) :
    _trace_db_call noFail vendor aliasName sql execute s =
      (outcomeOfExec execute,
       { s with
         spans := s.spans ++ [{
           name := vendor ++ ".query",
           span_kind := SpanKind.CLIENT,
           attributes := [("component", AttrValue.str vendor),
                          ("db.instance", AttrValue.str aliasName),
                          ("db.statement", AttrValue.str sql),
                          ("db.type", AttrValue.str "sql")],
           status := match execute with
                     | Except.ok _ => none
                     | Except.error _ => some { code := UNKNOWN, message := "DB error" },
           endCount := 1 }],
         tracer := some t }) := by
  cases execute <;>
    simp [_trace_db_call, h, noFail, tracerStartSpan, setCurrentSpanPlain, currentSpanId,
      add_attribute_to_current_span, currentSpanSet, Span.add_attribute, Span.set_status,
      tracerEndSpan, StepResult.andThen, newSpan, updateAt_append_length, outcomeOfExec]

/-- Witness for C6 on a concrete failing database call. -/
theorem db_call_closes_span_and_reraises_witness :
    _trace_db_call noFail "postgresql" "default" "SELECT 1"
        (Except.error "boom" : Except String Int) stateWithTracer
      = (DbCallOutcome.dbExn "boom",
         { spans := [{
             name := "postgresql.query",
             span_kind := SpanKind.CLIENT,
             attributes := [("component", AttrValue.str "postgresql"),
                            ("db.instance", AttrValue.str "default"),
                            ("db.statement", AttrValue.str "SELECT 1"),
                            ("db.type", AttrValue.str "sql")],
             status := some { code := UNKNOWN, message := "DB error" },
             endCount := 1 }],
           tracer := some { stack := [], finishCount := 0 },
           ctxRequest := none, ctxSpan := none, ctxHostnames := none,
           logCount := 0 }) :=
  db_call_closes_span_and_reraises "postgresql" "default" "SELECT 1"
    (Except.error "boom") stateWithTracer { stack := [], finishCount := 0 } rfl

/-- Helper: process_exception never ends a span and never touches the tracer,
for every failure oracle and every state. -/
theorem process_exception_preserves
    (mw : OpencensusMiddleware) (o : Oracle) (request : Request)
    (exception : RaisedException) (s : TraceState) :
    (OpencensusMiddleware.process_exception mw o request exception s).spans.map Span.endCount
        = s.spans.map Span.endCount
    ∧ (OpencensusMiddleware.process_exception mw o request exception s).tracer = s.tracer := by
  unfold OpencensusMiddleware.process_exception
  cases hex : disable_tracing_url request.path mw.excludelist_paths with
  | true => simp [hex]
  | false =>
    cases hc : s.ctxSpan with
    | none => simp [hex, hc, StepResult.toCaught]
    | some i =>
      cases h1 : o.failAddErrorName <;> cases h2 : o.failAddErrorMessage <;>
        cases h3 : o.failAddStacktrace <;> cases h4 : o.failSetDjangoAttrsExc <;>
          simp [hex, hc, h1, h2, h3, h4, StepResult.andThen, StepResult.toCaught,
            spanArenaUpdate, map_endCount_updateAt, endCount_add_attribute,
            endCount_set_django_attributes]

/-- C1: for a non-excluded request and a fault-free tracer, process_request
opens exactly one root span (end count 0), process_exception closes nothing
(on any oracle and state), and process_response performs exactly one close
of that span (end count exactly 1, never 0 or 2) plus exactly one tracer
finish, whether or not process_exception ran in between. -/
theorem root_span_closed_exactly_once
    (mw : OpencensusMiddleware) (request : Request) (response : Response)
    (exception : RaisedException) (o : Oracle) (s : TraceState)
    (hex : disable_tracing_url request.path mw.excludelist_paths = false) :
    ((OpencensusMiddleware.process_request mw noFail request initState).spans.map Span.endCount
        = [0])
    ∧ ((OpencensusMiddleware.process_exception mw noFail request exception
          (OpencensusMiddleware.process_request mw noFail request initState)).spans.map Span.endCount
        = [0])
    ∧ (((OpencensusMiddleware.process_response mw noFail request response
          (OpencensusMiddleware.process_request mw noFail request initState)).1).spans.map Span.endCount
        = [1])
    ∧ (((OpencensusMiddleware.process_response mw noFail request response
          (OpencensusMiddleware.process_exception mw noFail request exception
            (OpencensusMiddleware.process_request mw noFail request initState))).1).spans.map Span.endCount
        = [1])
    ∧ (((OpencensusMiddleware.process_response mw noFail request response
          (OpencensusMiddleware.process_exception mw noFail request exception
            (OpencensusMiddleware.process_request mw noFail request initState))).1).tracer.map TracerData.finishCount
        = some 1)
    ∧ ((OpencensusMiddleware.process_exception mw o request exception s).spans.map Span.endCount
        = s.spans.map Span.endCount)
    ∧ ((OpencensusMiddleware.process_exception mw o request exception s).tracer = s.tracer) := by
  refine ⟨?_, ?_, ?_, ?_, ?_,
    (process_exception_preserves mw o request exception s).1,
    (process_exception_preserves mw o request exception s).2⟩ <;>
    simp [OpencensusMiddleware.process_request, OpencensusMiddleware.process_exception,
      OpencensusMiddleware.process_response, hex, noFail, initState,
      StepResult.andThen, StepResult.toCaught, tracerStartSpan, setCurrentSpanPlain,
      currentSpanId, add_attribute_to_current_span, currentSpanSet, spanArenaUpdate,
      tracerEndSpan, tracerFinish, Span.add_attribute, newSpan, updateAt,
      endCount_add_attribute, endCount_set_django_attributes]

/-- Witness for C1 on a concrete non-excluded request. -/
theorem root_span_closed_exactly_once_witness :
    ((OpencensusMiddleware.process_request mwNone noFail reqOrders initState).spans.map Span.endCount
        = [0])
    ∧ ((OpencensusMiddleware.process_exception mwNone noFail reqOrders excBoom
          (OpencensusMiddleware.process_request mwNone noFail reqOrders initState)).spans.map Span.endCount
        = [0])
    ∧ (((OpencensusMiddleware.process_response mwNone noFail reqOrders respOk
          (OpencensusMiddleware.process_request mwNone noFail reqOrders initState)).1).spans.map Span.endCount
        = [1])
    ∧ (((OpencensusMiddleware.process_response mwNone noFail reqOrders respOk
          (OpencensusMiddleware.process_exception mwNone noFail reqOrders excBoom
            (OpencensusMiddleware.process_request mwNone noFail reqOrders initState))).1).spans.map Span.endCount
        = [1])
    ∧ (((OpencensusMiddleware.process_response mwNone noFail reqOrders respOk
          (OpencensusMiddleware.process_exception mwNone noFail reqOrders excBoom
            (OpencensusMiddleware.process_request mwNone noFail reqOrders initState))).1).tracer.map TracerData.finishCount
        = some 1)
    ∧ ((OpencensusMiddleware.process_exception mwNone noFail reqOrders excBoom stateOneSpan).spans.map Span.endCount
        = stateOneSpan.spans.map Span.endCount)
    ∧ ((OpencensusMiddleware.process_exception mwNone noFail reqOrders excBoom stateOneSpan).tracer
        = stateOneSpan.tracer) :=
  root_span_closed_exactly_once mwNone reqOrders respOk excBoom noFail stateOneSpan rfl

/-- C8: on a non-excluded request, process_exception rewrites exactly the span
cached in the context store at request start (whatever the tracer stack
currently points to), appending the error name, the stringified message and
the joined formatted traceback, then re-attaching the django user
attributes; nothing else in the state changes, so in particular no span is
closed and the tracer is untouched. -/
theorem process_exception_annotates_stored_span
    (mw : OpencensusMiddleware) (request : Request) (exception : RaisedException)
    (s : TraceState) (i : Nat)
    (hex : disable_tracing_url request.path mw.excludelist_paths = false)
    (hspan : s.ctxSpan = some i) :
    OpencensusMiddleware.process_exception mw noFail request exception s =
      spanArenaUpdate i (fun sp =>
        _set_django_attributes
          (Span.add_attribute
            (Span.add_attribute
              (Span.add_attribute sp ERROR_NAME (AttrValue.str exception.class_name))
              ERROR_MESSAGE (AttrValue.str exception.message))
            STACKTRACE (AttrValue.str (String.intercalate "\n" exception.tb_lines)))
          request) s := by
  unfold OpencensusMiddleware.process_exception
  simp [hex, hspan, noFail, StepResult.andThen, StepResult.toCaught, spanArenaUpdate,
    updateAt_updateAt]

/-- Witness for C8 on a concrete request-start state whose cached span is id 0. -/
theorem process_exception_annotates_stored_span_witness :
    OpencensusMiddleware.process_exception mwNone noFail reqOrders excBoom stateOneSpan =
      spanArenaUpdate 0 (fun sp =>
        _set_django_attributes
          (Span.add_attribute
            (Span.add_attribute
              (Span.add_attribute sp ERROR_NAME (AttrValue.str excBoom.class_name))
              ERROR_MESSAGE (AttrValue.str excBoom.message))
            STACKTRACE (AttrValue.str (String.intercalate "\n" excBoom.tb_lines)))
          reqOrders) stateOneSpan :=
  process_exception_annotates_stored_span mwNone reqOrders excBoom stateOneSpan 0 rfl rfl

/-- An authenticated principal with a null primary key but a username. -/
def userNoPk : DjangoUser := { pk := none, username := some "alice" }

/-- A non-excluded request carrying a principal whose user id is null. -/
def reqAlice : Request :=
  { path := "/orders/42", host := "example.com", method := "GET",
    absolute_uri := "http://example.com/orders/42", user := some userNoPk,
    meta := [] }

/-- C9 counterexample: the request carries an authenticated principal whose
user id is null, yet process_response still attaches the user name
attribute (the resulting root span holds django.user.name and no
django.user.id), refuting that neither attribute is attached when either
of the two is null. -/
theorem user_name_attached_despite_null_user_id :
    (reqAlice.user.map DjangoUser.pk = some none)
    ∧ ((OpencensusMiddleware.process_response mwNone noFail reqAlice respOk
          stateOneSpan).1.spans.map Span.attributes
        = [[("http.status_code", AttrValue.int 200),
            ("django.user.name", AttrValue.str "alice")]]) :=
  ⟨rfl, rfl⟩

/-- C9 amended: _set_django_attributes (as invoked from process_response and
process_exception) attaches the two user attributes independently: when the
request carries a principal, django.user.id is appended exactly when the
user id is non-null and django.user.name exactly when the user name is
non-null; neither requires the other. -/
theorem set_django_attributes_attaches_independently
    (span : Span) (request : Request) :
    (_set_django_attributes span request).attributes =
      span.attributes ++
        (match request.user with
         | none => []
         | some u =>
           (match u.pk with
            | some user_id => [("django.user.id", AttrValue.str (toString user_id))]
            | none => []) ++
           (match u.username with
            | some user_name => [("django.user.name", AttrValue.str user_name)]
            | none => [])) := by
  unfold _set_django_attributes
  cases request.user with
  | none => simp
  | some u =>
    cases hpk : u.pk <;> cases hun : u.username <;>
      simp [hpk, hun, Span.add_attribute]

/-- An oracle on which span-context decoding (propagator.from_headers)
raises. -/
def oracleDecodeFail : Oracle := { noFail with failFromHeaders := true }

/-- C10: on a non-excluded request, when span-context decoding, tracer
construction or span creation raises, process_request swallows and logs the
exception, but the request handle and the hostname-excludelist snapshot
written before the guarded block remain in the context store, while no span
entry is written and no span exists: the store is not rolled back. -/
theorem failed_instrumentation_keeps_store_entries
    (mw : OpencensusMiddleware) (o : Oracle) (request : Request)
    (hex : disable_tracing_url request.path mw.excludelist_paths = false)
    (hfail : o.failFromHeaders = true ∨ o.failTracerCtor = true ∨ o.failStartSpan = true) :
    ((OpencensusMiddleware.process_request mw o request initState).ctxRequest = some request)
    ∧ ((OpencensusMiddleware.process_request mw o request initState).ctxHostnames
        = some mw.excludelist_hostnames)
    ∧ ((OpencensusMiddleware.process_request mw o request initState).ctxSpan = none)
    ∧ ((OpencensusMiddleware.process_request mw o request initState).spans = [])
    ∧ ((OpencensusMiddleware.process_request mw o request initState).logCount = 1) := by
  unfold OpencensusMiddleware.process_request
  cases h1 : o.failFromHeaders with
  | true => simp [hex, h1, StepResult.andThen, StepResult.toCaught, initState]
  | false =>
    cases h2 : o.failTracerCtor with
    | true => simp [hex, h1, h2, StepResult.andThen, StepResult.toCaught, initState]
    | false =>
      cases h3 : o.failStartSpan with
      | true => simp [hex, h1, h2, h3, StepResult.andThen, StepResult.toCaught, initState]
      | false => simp [h1, h2, h3] at hfail

/-- Witness for C10 with a failing propagator decode. -/
theorem failed_instrumentation_keeps_store_entries_witness :
    ((OpencensusMiddleware.process_request mwNone oracleDecodeFail reqOrders initState).ctxRequest
        = some reqOrders)
    ∧ ((OpencensusMiddleware.process_request mwNone oracleDecodeFail reqOrders initState).ctxHostnames
        = some mwNone.excludelist_hostnames)
    ∧ ((OpencensusMiddleware.process_request mwNone oracleDecodeFail reqOrders initState).ctxSpan = none)
    ∧ ((OpencensusMiddleware.process_request mwNone oracleDecodeFail reqOrders initState).spans = [])
    ∧ ((OpencensusMiddleware.process_request mwNone oracleDecodeFail reqOrders initState).logCount = 1) :=
  failed_instrumentation_keeps_store_entries mwNone oracleDecodeFail reqOrders rfl
    (Or.inl rfl)

/-- Helper: a raise at any step of the guarded block of process_request
(header decode, tracer construction, span start, or any of the five
attribute calls) is downgraded to exactly one log entry. -/
theorem process_request_any_failure_logs
    (mw : OpencensusMiddleware) (o : Oracle) (request : Request) (s : TraceState)
    (hex : disable_tracing_url request.path mw.excludelist_paths = false)
    (hfail : (o.failFromHeaders || o.failTracerCtor || o.failStartSpan || o.failAddHost
        || o.failAddMethod || o.failAddPath || o.failAddRoute || o.failAddUrl) = true) :
    (OpencensusMiddleware.process_request mw o request s).logCount = s.logCount + 1 := by
  unfold OpencensusMiddleware.process_request
  cases h1 : o.failFromHeaders with
  | true =>
    simp [hex, h1, StepResult.andThen, StepResult.toCaught]
  | false =>
  cases h2 : o.failTracerCtor with
  | true =>
    simp [hex, h1, h2, StepResult.andThen, StepResult.toCaught]
  | false =>
  cases h3 : o.failStartSpan with
  | true =>
    simp [hex, h1, h2, h3, StepResult.andThen, StepResult.toCaught]
  | false =>
  cases h4 : o.failAddHost with
  | true =>
    simp [hex, h1, h2, h3, h4, StepResult.andThen, StepResult.toCaught, tracerStartSpan,
      setCurrentSpanPlain, currentSpanId, add_attribute_to_current_span, currentSpanSet]
  | false =>
  cases h5 : o.failAddMethod with
  | true =>
    simp [hex, h1, h2, h3, h4, h5, StepResult.andThen, StepResult.toCaught, tracerStartSpan,
      setCurrentSpanPlain, currentSpanId, add_attribute_to_current_span, currentSpanSet]
  | false =>
  cases h6 : o.failAddPath with
  | true =>
    simp [hex, h1, h2, h3, h4, h5, h6, StepResult.andThen, StepResult.toCaught, tracerStartSpan,
      setCurrentSpanPlain, currentSpanId, add_attribute_to_current_span, currentSpanSet]
  | false =>
  cases h7 : o.failAddRoute with
  | true =>
    simp [hex, h1, h2, h3, h4, h5, h6, h7, StepResult.andThen, StepResult.toCaught,
      tracerStartSpan, setCurrentSpanPlain, currentSpanId, add_attribute_to_current_span,
      currentSpanSet]
  | false =>
  cases h8 : o.failAddUrl with
  | true =>
    simp [hex, h1, h2, h3, h4, h5, h6, h7, h8, StepResult.andThen, StepResult.toCaught,
      tracerStartSpan, setCurrentSpanPlain, currentSpanId, add_attribute_to_current_span,
      currentSpanSet]
  | false =>
    simp [h1, h2, h3, h4, h5, h6, h7, h8] at hfail

/-- Helper: a raise at any step of the guarded block of process_response
(status-code annotation, user attributes, span close, tracer finish) is
downgraded to exactly one log entry. -/
theorem process_response_any_failure_logs
    (mw : OpencensusMiddleware) (o : Oracle) (request : Request) (response : Response)
    (s : TraceState)
    (hex : disable_tracing_url request.path mw.excludelist_paths = false)
    (hfail : (o.failAddStatusCode || o.failSetDjangoAttrsResp || o.failEndSpan
        || o.failFinish) = true) :
    ((OpencensusMiddleware.process_response mw o request response s).1).logCount
      = s.logCount + 1 := by
  unfold OpencensusMiddleware.process_response
  cases hc : s.ctxSpan with
  | none => simp [hex, hc, StepResult.toCaught]
  | some i =>
  cases h1 : o.failAddStatusCode with
  | true =>
    simp [hex, hc, h1, StepResult.andThen, StepResult.toCaught]
  | false =>
  cases h2 : o.failSetDjangoAttrsResp with
  | true =>
    simp [hex, hc, h1, h2, StepResult.andThen, StepResult.toCaught, spanArenaUpdate]
  | false =>
  cases h3 : o.failEndSpan with
  | true =>
    simp [hex, hc, h1, h2, h3, StepResult.andThen, StepResult.toCaught, spanArenaUpdate,
      tracerEndSpan]
  | false =>
  cases htr : s.tracer with
  | none =>
    simp [hex, hc, h1, h2, h3, htr, StepResult.andThen, StepResult.toCaught, spanArenaUpdate,
      tracerEndSpan]
  | some t =>
  cases hst : t.stack with
  | nil =>
    simp [hex, hc, h1, h2, h3, htr, hst, StepResult.andThen, StepResult.toCaught,
      spanArenaUpdate, tracerEndSpan]
  | cons j rest =>
  cases h4 : o.failFinish with
  | true =>
    simp [hex, hc, h1, h2, h3, h4, htr, hst, StepResult.andThen, StepResult.toCaught,
      spanArenaUpdate, tracerEndSpan, tracerFinish]
  | false =>
    simp [h1, h2, h3, h4] at hfail

/-- Helper: a raise at any step of the guarded block of process_exception
(the three error attributes or the user attributes) is downgraded to exactly
one log entry. -/
theorem process_exception_any_failure_logs
    (mw : OpencensusMiddleware) (o : Oracle) (request : Request)
    (exception : RaisedException) (s : TraceState)
    (hex : disable_tracing_url request.path mw.excludelist_paths = false)
    (hfail : (o.failAddErrorName || o.failAddErrorMessage || o.failAddStacktrace
        || o.failSetDjangoAttrsExc) = true) :
    (OpencensusMiddleware.process_exception mw o request exception s).logCount
      = s.logCount + 1 := by
  unfold OpencensusMiddleware.process_exception
  cases hc : s.ctxSpan with
  | none => simp [hex, hc, StepResult.toCaught]
  | some i =>
  cases h1 : o.failAddErrorName with
  | true =>
    simp [hex, hc, h1, StepResult.andThen, StepResult.toCaught]
  | false =>
  cases h2 : o.failAddErrorMessage with
  | true =>
    simp [hex, hc, h1, h2, StepResult.andThen, StepResult.toCaught, spanArenaUpdate]
  | false =>
  cases h3 : o.failAddStacktrace with
  | true =>
    simp [hex, hc, h1, h2, h3, StepResult.andThen, StepResult.toCaught, spanArenaUpdate]
  | false =>
  cases h4 : o.failSetDjangoAttrsExc with
  | true =>
    simp [hex, hc, h1, h2, h3, h4, StepResult.andThen, StepResult.toCaught, spanArenaUpdate]
  | false =>
    simp [h1, h2, h3, h4] at hfail

/-- An oracle on which the database interceptor step tracer.start_span
raises. -/
def oracleDbStartFail : Oracle := { noFail with failDbStartSpan := true }

/-- C2 counterexample: an exception in the span-management code of
_trace_db_call (tracer.start_span) is not caught at the interceptor
boundary: the caller of the database call observes the instrumentation
exception instead of the call result ok 7 it would have observed bare, so
the failure is not downgraded to a log entry and the observable behavior of
the wrapped call changes. -/
theorem db_span_management_failure_alters_behavior :
    ((_trace_db_call oracleDbStartFail "postgresql" "default" "SELECT 1"
        (Except.ok (7 : Int) : Except String Int) stateWithTracer).1
      = DbCallOutcome.instrExn)
    ∧ (outcomeOfExec (Except.ok (7 : Int) : Except String Int) = DbCallOutcome.ok 7)
    ∧ ((_trace_db_call oracleDbStartFail "postgresql" "default" "SELECT 1"
        (Except.ok (7 : Int) : Except String Int) stateWithTracer).2.logCount = 0) :=
  ⟨rfl, rfl, rfl⟩

/-- C2 amended: for every oracle, an exception raised at any step of a hook
guarded block (header decode, tracer construction, span opening, attribute
setting, span closing, tracer finish) is caught at that hook boundary and
downgraded to exactly one log entry, and the response object still reaches
the caller unchanged; the database interceptor, by contrast, does not guard
its own span-management code, so an exception there (here in
tracer.start_span) escapes to the caller of the wrapped database call. -/
theorem hook_failures_downgraded_but_db_interceptor_unguarded
    {ε ρ : Type} (mw : OpencensusMiddleware) (o : Oracle) (request : Request)
    (view_func_name : String) (response : Response) (exception : RaisedException)
    (s s2 : TraceState) (t : TracerData) (vendor aliasName sql : String)
    (execute : Except ε ρ)
    (hex : disable_tracing_url request.path mw.excludelist_paths = false) :
    ((o.failFromHeaders || o.failTracerCtor || o.failStartSpan || o.failAddHost
        || o.failAddMethod || o.failAddPath || o.failAddRoute || o.failAddUrl) = true →
      (OpencensusMiddleware.process_request mw o request s).logCount = s.logCount + 1)
    ∧ (o.failSetViewName = true →
      (OpencensusMiddleware.process_view mw o request view_func_name s).logCount
        = s.logCount + 1)
    ∧ ((o.failAddStatusCode || o.failSetDjangoAttrsResp || o.failEndSpan
        || o.failFinish) = true →
      ((OpencensusMiddleware.process_response mw o request response s).1).logCount
        = s.logCount + 1)
    ∧ ((OpencensusMiddleware.process_response mw o request response s).2 = response)
    ∧ ((o.failAddErrorName || o.failAddErrorMessage || o.failAddStacktrace
        || o.failSetDjangoAttrsExc) = true →
      (OpencensusMiddleware.process_exception mw o request exception s).logCount
        = s.logCount + 1)
    ∧ (s2.tracer = some t → o.failDbStartSpan = true →
      (_trace_db_call o vendor aliasName sql execute s2).1 = DbCallOutcome.instrExn) := by
  refine ⟨process_request_any_failure_logs mw o request s hex, ?_,
    process_response_any_failure_logs mw o request response s hex, ?_,
    process_exception_any_failure_logs mw o request exception s hex, ?_⟩
  · intro hv
    unfold OpencensusMiddleware.process_view
    simp [hex, hv, currentSpanSet, StepResult.toCaught]
  · unfold OpencensusMiddleware.process_response
    split <;> rfl
  · intro htr hdb
    unfold _trace_db_call
    rw [htr]
    simp [hdb]

/-- An oracle failing exactly at span opening, view renaming, span closing,
tracer finish, the exception-hook user attributes, and the database
interceptor span start. -/
def lateFailOracle : Oracle :=
  { noFail with
      failStartSpan := true
      failSetViewName := true
      failEndSpan := true
      failFinish := true
      failSetDjangoAttrsExc := true
      failDbStartSpan := true }

/-- Witness for C2 amended, exercising the span-opening, span-closing,
tracer-finish and user-attribute failure sites on concrete inputs. -/
theorem hook_failures_downgraded_but_db_interceptor_unguarded_witness :
    ((OpencensusMiddleware.process_request mwNone lateFailOracle reqOrders initState).logCount
        = initState.logCount + 1)
    ∧ ((OpencensusMiddleware.process_view mwNone lateFailOracle reqOrders "OrdersView"
          stateOneSpan).logCount = stateOneSpan.logCount + 1)
    ∧ (((OpencensusMiddleware.process_response mwNone lateFailOracle reqOrders respOk
          stateOneSpan).1).logCount = stateOneSpan.logCount + 1)
    ∧ ((OpencensusMiddleware.process_response mwNone lateFailOracle reqOrders respOk
          stateOneSpan).2 = respOk)
    ∧ ((OpencensusMiddleware.process_exception mwNone lateFailOracle reqOrders excBoom
          stateOneSpan).logCount = stateOneSpan.logCount + 1)
    ∧ ((_trace_db_call lateFailOracle "postgresql" "default" "SELECT 1"
          (Except.ok (7 : Int) : Except String Int) stateWithTracer).1
        = DbCallOutcome.instrExn) := by
  have hreq := (hook_failures_downgraded_but_db_interceptor_unguarded mwNone lateFailOracle
    reqOrders "OrdersView" respOk excBoom initState stateWithTracer
    { stack := [], finishCount := 0 } "postgresql" "default" "SELECT 1"
    (Except.ok (7 : Int) : Except String Int) rfl).1
  have h := hook_failures_downgraded_but_db_interceptor_unguarded mwNone lateFailOracle
    reqOrders "OrdersView" respOk excBoom stateOneSpan stateWithTracer
    { stack := [], finishCount := 0 } "postgresql" "default" "SELECT 1"
    (Except.ok (7 : Int) : Except String Int) rfl
  exact ⟨hreq rfl, h.2.1 rfl, h.2.2.1 rfl, h.2.2.2.1, h.2.2.2.2.1 rfl, h.2.2.2.2.2 rfl rfl⟩

/-- Middleware whose hostname excludelist names the request host below. -/
def mwHostExcl : OpencensusMiddleware :=
  { excludelist_paths := none, excludelist_hostnames := some ["excluded.example.com"] }

/-- A request whose hostname matches the configured hostname exclusion. -/
def reqHostExcl : Request :=
  { path := "/orders/42", host := "excluded.example.com", method := "GET",
    absolute_uri := "http://excluded.example.com/orders/42", user := none,
    meta := [] }

/-- C4 counterexample: the request hostname matches the configured
hostname-exclusion pattern, yet process_request still instruments the
request: a root span is created and cached in the context store, refuting
that a hostname match suppresses instrumentation like a path match does. -/
theorem hostname_excluded_request_still_instrumented :
    (disable_tracing_hostname reqHostExcl.host mwHostExcl.excludelist_hostnames = true)
    ∧ ((OpencensusMiddleware.process_request mwHostExcl noFail reqHostExcl initState).spans.length = 1)
    ∧ ((OpencensusMiddleware.process_request mwHostExcl noFail reqHostExcl initState).ctxSpan = some 0) :=
  ⟨rfl, rfl, rfl⟩

/-- C4 amended: the middleware hooks never consult the hostname exclusions;
process_request merely snapshots them into the context store for downstream
consumers. For any hostname whatsoever (matching a configured exclusion or
not), a request whose path is not excluded is instrumented: one root span
is created and cached, and the hostname excludelist is stored verbatim. -/
theorem hostname_exclusion_not_consulted_by_hooks
    (mw : OpencensusMiddleware) (request : Request)
    (hex : disable_tracing_url request.path mw.excludelist_paths = false) :
    ((OpencensusMiddleware.process_request mw noFail request initState).spans.length = 1)
    ∧ ((OpencensusMiddleware.process_request mw noFail request initState).ctxSpan = some 0)
    ∧ ((OpencensusMiddleware.process_request mw noFail request initState).ctxHostnames
        = some mw.excludelist_hostnames) := by
  unfold OpencensusMiddleware.process_request
  simp [hex, noFail, StepResult.andThen, StepResult.toCaught, tracerStartSpan,
    setCurrentSpanPlain, currentSpanId, add_attribute_to_current_span, currentSpanSet,
    spanArenaUpdate, updateAt, newSpan, initState]

/-- Witness for C4 amended at the hostname-excluded request. -/
theorem hostname_exclusion_not_consulted_by_hooks_witness :
    ((OpencensusMiddleware.process_request mwHostExcl noFail reqHostExcl initState).spans.length = 1)
    ∧ ((OpencensusMiddleware.process_request mwHostExcl noFail reqHostExcl initState).ctxSpan = some 0)
    ∧ ((OpencensusMiddleware.process_request mwHostExcl noFail reqHostExcl initState).ctxHostnames
        = some mwHostExcl.excludelist_hostnames) :=
  hostname_exclusion_not_consulted_by_hooks mwHostExcl reqHostExcl rfl
